import Mathlib

/-!
Verification of the CaucaVR panorama-viewer simulation core
(`src/functions.js`): the ECSY entity-component systems driving the
pressable VR buttons (ButtonSystem, FingerInputSystem), the one-shot
console calibration (CalibrationSystem), the instruction-text visibility
toggle (InstructionSystem), and the scene-index navigation.

The JavaScript is shallowly embedded: machine numbers (all values here
stay far from any overflow or precision edge) are modelled as rationals,
per-frame external inputs (hand pressing distances, controller
visibility, head pose, session availability) become explicit arguments,
and each system's `execute` body becomes a pure step function on a
record of the component fields it reads and writes.
-/

namespace CaucaVR

/-- Button states, `functions.js:17`: `[resting, pressed, fully_pressed, recovering]`. -/
inductive BState where
  | resting
  | pressed
  | fully_pressed
  | recovering
  deriving DecidableEq, Repr

/-- Per-button state: the `Button` component fields (`functions.js:16-27`)
together with the attached mesh's `position.y` (the only spatial datum the
button systems touch).  `restingY` is modelled as already captured (the
lazy first-frame capture at `functions.js:63-65` has run).  `pressCount`
counts invocations of `button.action()` (`functions.js:74`) and
`releaseCount` counts invocations of `button.releaseSound.play()` for a
button whose release sound is bound (`functions.js:77`); they are
observation counters, not data the JavaScript stores. -/
structure ButtonE where
  currState : BState
  prevState : BState
  pressCount : Nat
  releaseCount : Nat
  y : ℚ
  restingY : ℚ
  surfaceY : ℚ
  recoverySpeed : ℚ
  fullPressDistance : ℚ
  deriving DecidableEq, Repr

/-- Rising-edge test used twice in `ButtonSystem.execute`
(`functions.js:72` and `functions.js:76`): 1 when `currState == t` and
`prevState != t`, else 0. -/
def fire (t curr prev : BState) : Nat :=
  if curr = t ∧ prev ≠ t then 1 else 0

/-- `ButtonSystem.execute` per button entity (`functions.js:59-83`),
restricted to the fields modelled here: fire the full-press edge
(sound + `action()`, `functions.js:72-75`), fire the recovering edge
(release sound, `functions.js:76-78`), then `prevState ← currState`,
`currState ← resting` (`functions.js:81-82`). -/
def buttonSysStep (b : ButtonE) : ButtonE :=
  { b with
    pressCount := b.pressCount + fire BState.fully_pressed b.currState b.prevState
    releaseCount := b.releaseCount + fire BState.recovering b.currState b.prevState
    prevState := b.currState
    currState := BState.resting }

/-- Models the JavaScript call `Math.max( pressingDistances )` at
`functions.js:123`, where the array is passed as a single argument and
coerced to a number: the empty array coerces to 0, a one-element array
coerces to its element, and any longer array coerces to NaN (`none`). -/
def jsMathMaxArr : List ℚ → Option ℚ
  | [] => some 0
  | [x] => some x
  | _ => none

/-- `FingerInputSystem.execute` per pressable entity
(`functions.js:100-134`), with the per-frame pressing distances that the
hand-geometry loop (`functions.js:105-110`) collected passed in as
`dists`.  No contact: linear recovery or snap to rest
(`functions.js:112-119`).  Contact: state `pressed`, displace by
`Math.max( dists )` when that reading is positive (a NaN reading, the
multi-hand case, fails the `> 0` test and displaces nothing), then clamp
to the full-press stop (`functions.js:121-131`). -/
def fingerStep (dt : ℚ) (dists : List ℚ) (b : ButtonE) : ButtonE :=
  if dists.length = 0 then
    if b.y < b.restingY then
      { b with y := b.y + b.recoverySpeed * dt, currState := BState.recovering }
    else
      { b with y := b.restingY, currState := BState.resting }
  else
    let y1 :=
      match jsMathMaxArr dists with
      | some d => if 0 < d then b.y - d else b.y
      | none => b.y
    if y1 ≤ b.restingY - b.fullPressDistance then
      { b with y := b.restingY - b.fullPressDistance, currState := BState.fully_pressed }
    else
      { b with y := y1, currState := BState.pressed }

/-- One frame of a button's state-machine life: ButtonSystem's pass
(`functions.js:72-82`) followed by FingerInputSystem overwriting
`currState` with `c`, the value its contact logic produced this frame
(`functions.js:115`, `118`, `122`, `129`).  The position dynamics do not
influence the edge counters, so they are elided here and treated in
`fingerStep`. -/
def buttonFrame (b : ButtonE) (c : BState) : ButtonE :=
  { buttonSysStep b with currState := c }

/-- Run a sequence of frames: `cs` is the per-frame `currState` sequence
written by FingerInputSystem. -/
def runB (b : ButtonE) (cs : List BState) : ButtonE :=
  cs.foldl buttonFrame b

/-- A button as built at world setup: schema defaults
`currState = prevState = 'resting'` (`functions.js:18-19`), no side
effects observed yet; the numeric fields are immaterial to the edge
counters. -/
def initialButton : ButtonE :=
  { currState := BState.resting, prevState := BState.resting
    pressCount := 0, releaseCount := 0
    y := 0, restingY := 0, surfaceY := 0, recoverySpeed := 0, fullPressDistance := 0 }

/-- Number of `action()` invocations after the frames `cs` have run and
ButtonSystem has examined the last of them (one further ButtonSystem
pass). -/
def pressesIn (cs : List BState) : Nat :=
  (buttonSysStep (runB initialButton cs)).pressCount

/-- Number of release-sound plays after the frames `cs` have run and
ButtonSystem has examined the last of them. -/
def releasesIn (cs : List BState) : Nat :=
  (buttonSysStep (runB initialButton cs)).releaseCount

/-- Specification-side edge counter: fires of target `t` along the state
chain `prev, curr, cs…`, including the check of the final state. -/
def edgeRun (t curr prev : BState) : List BState → Nat
  | [] => fire t curr prev
  | c :: cs => fire t curr prev + edgeRun t c curr cs

/-- Last element of `cs`, or `b` when `cs` is empty. -/
def runCurr (b : BState) : List BState → BState
  | [] => b
  | c :: cs => runCurr c cs

/-- A spatial position, as the three coordinate fields the calibration
code touches (`functions.js:193-195`). -/
structure Vec3 where
  x : ℚ
  y : ℚ
  z : ℚ
  deriving DecidableEq, Repr

/-- An entity carrying the `NeedCalibration` marker state together with
its `OffsetFromCamera` component and its object's position
(`functions.js:170-178`, `380-383`). -/
structure CalEntity where
  needCalibration : Bool
  pos : Vec3
  offset : Vec3
  deriving DecidableEq, Repr

/-- `CalibrationSystem.execute` per entity (`functions.js:187-199`): the
query only yields entities still carrying the marker; when the XR
session is available the position is set to the head position plus the
offset, componentwise, and the marker is removed
(`functions.js:189-196`); otherwise nothing happens this frame. -/
def calibrationStep (tracking : Bool) (head : Vec3) (e : CalEntity) : CalEntity :=
  if e.needCalibration then
    if tracking then
      { e with
        pos := { x := head.x + e.offset.x, y := head.y + e.offset.y, z := head.z + e.offset.z }
        needCalibration := false }
    else e
  else e

/-- Several further frames of `CalibrationSystem.execute`, each with its
own session availability and head position. -/
def calibrationRun (frames : List (Bool × Vec3)) (e : CalEntity) : CalEntity :=
  frames.foldl (fun x p => calibrationStep p.1 p.2 x) e

/-- The visibility accumulation loop of `InstructionSystem.execute`
(`functions.js:151-156`): start from `false`, set to `true` on each
visible controller. -/
def anyVisibleAcc (controllers : List Bool) : Bool :=
  controllers.foldl (fun v c => if c then true else v) false

/-- `InstructionSystem.execute` (`functions.js:150-161`): every
instruction-text object's visibility becomes the accumulated flag;
`controllers` and `texts` are the visibility flags of the hand proxies
and of the instruction-text objects this frame. -/
def instructionStep (controllers texts : List Bool) : List Bool :=
  texts.map (fun _ => anyVisibleAcc controllers)

/-- The scene list, `functions.js:212-219`. -/
def scenes : List String :=
  [ "./images/centrocaldas.jpg"
  , "./images/catedral.jpg"
  , "./images/catt.jpg"
  , "./images/bancolombia.jpg"
  , "./images/bancobogota.jpg"
  , "./images/juanvaldez.jpg" ]

/-- `nextScene` (`functions.js:444-447`): advance the scene index,
wrapping modulo the scene count. -/
def nextSceneIndex (i : Nat) : Nat :=
  (i + 1) % scenes.length

/-- `prevScene` (`functions.js:449-452`): step the scene index back,
wrapping; the JavaScript `(i - 1 + scenes.length) % scenes.length` on a
non-negative index equals this natural-number form. -/
def prevSceneIndex (i : Nat) : Nat :=
  (i + scenes.length - 1) % scenes.length

/-- The four registered systems (`functions.js:374-378`). -/
inductive SystemId where
  | instruction
  | calibration
  | button
  | finger
  deriving DecidableEq, Repr

/-- Frame-level world state: the component data the four systems read and
write, plus this frame's external inputs (controller visibility flags,
session availability, head position, and each pressable button's list of
pressing distances), which no system writes. -/
structure WorldState where
  controllers : List Bool
  instrTexts : List Bool
  tracking : Bool
  head : Vec3
  console : CalEntity
  buttons : List (ButtonE × List ℚ)

/-- One system's `execute` pass over the world state. -/
def sysStep (s : SystemId) (dt : ℚ) (w : WorldState) : WorldState :=
  match s with
  | SystemId.instruction =>
      { w with instrTexts := instructionStep w.controllers w.instrTexts }
  | SystemId.calibration =>
      { w with console := calibrationStep w.tracking w.head w.console }
  | SystemId.button =>
      { w with buttons := w.buttons.map (fun p => (buttonSysStep p.1, p.2)) }
  | SystemId.finger =>
      { w with buttons := w.buttons.map (fun p => (fingerStep dt p.2 p.1, p.2)) }

/-- The registration order of `functions.js:374-378`: InstructionSystem,
then CalibrationSystem, then ButtonSystem, then FingerInputSystem. -/
def registeredSystems : List SystemId :=
  [SystemId.instruction, SystemId.calibration, SystemId.button, SystemId.finger]

/-- The order the specification asserts: CalibrationSystem first, then
ButtonSystem, then FingerInputSystem, then InstructionSystem last.
Stated from the specification's words, for comparison with
`registeredSystems`. -/
def specSystemOrder : List SystemId :=
  [SystemId.calibration, SystemId.button, SystemId.finger, SystemId.instruction]

/-- Modelled from the spec: the per-frame `world.execute` driver
(`functions.js:464`) is ECSY library code not included under `src/`; the
specification describes it as running every registered system once per
frame in a fixed order, and with all systems registered at the default
priority that fixed order is the registration order of
`functions.js:374-378`. -/
def worldExecute (dt : ℚ) (w : WorldState) : WorldState :=
  registeredSystems.foldl (fun x s => sysStep s dt x) w

/-- The specification's scenario button (`restingY = 0`, `surfaceY = 0.05`,
`fullPressDistance = 0.02`, the `recoverySpeed` default 0.4 of
`functions.js:24`), at rest with no events observed yet. -/
def pressDemo : ButtonE :=
  { currState := BState.resting, prevState := BState.resting
    pressCount := 0, releaseCount := 0
    y := 0, restingY := 0, surfaceY := 1/20, recoverySpeed := 2/5, fullPressDistance := 1/50 }

/-- The scenario button displaced slightly below rest (`y = -0.01`),
recovering with no hand contact. -/
def recovDemo : ButtonE :=
  { currState := BState.recovering, prevState := BState.pressed
    pressCount := 0, releaseCount := 0
    y := -(1/100), restingY := 0, surfaceY := 1/20, recoverySpeed := 2/5
    fullPressDistance := 1/50 }

/-- The console entity as created at `functions.js:380-383`: marked
needs-calibration, with offset `(0, -0.4, -0.3)`. -/
def calDemo : CalEntity :=
  { needCalibration := true
    pos := { x := 0, y := 0, z := 0 }
    offset := { x := 0, y := -(2/5), z := -(3/10) } }

/-- A sample head position for the calibration scenario. -/
def headDemo : Vec3 := { x := 1, y := 2, z := 3 }

/-- Sample later frames (session availability, head position) run after a
successful calibration. -/
def calFrames : List (Bool × Vec3) :=
  [(true, { x := 4, y := 4, z := 4 }), (false, { x := 5, y := 5, z := 5 })]

lemma runB_cons (b : ButtonE) (c : BState) (cs : List BState) :
    runB b (c :: cs) = runB (buttonFrame b c) cs := rfl

lemma runB_append (b : ButtonE) (xs ys : List BState) :
    runB b (xs ++ ys) = runB (runB b xs) ys := by
  simp [runB, List.foldl_append]

lemma runB_currState (cs : List BState) :
    ∀ b : ButtonE, (runB b cs).currState = runCurr b.currState cs := by
  induction cs with
  | nil => intro b; rfl
  | cons c cs ih =>
      intro b
      rw [runB_cons, ih]
      rfl

lemma fire_of_ne (t curr prev : BState) (h : curr ≠ t) : fire t curr prev = 0 := by
  simp [fire, h]

lemma pressCount_runB (cs : List BState) :
    ∀ b : ButtonE, (buttonSysStep (runB b cs)).pressCount
      = b.pressCount + edgeRun BState.fully_pressed b.currState b.prevState cs := by
  induction cs with
  | nil => intro b; rfl
  | cons c cs ih =>
      intro b
      rw [runB_cons, ih]
      simp [buttonFrame, buttonSysStep, edgeRun, Nat.add_assoc]

lemma releaseCount_runB (cs : List BState) :
    ∀ b : ButtonE, (buttonSysStep (runB b cs)).releaseCount
      = b.releaseCount + edgeRun BState.recovering b.currState b.prevState cs := by
  induction cs with
  | nil => intro b; rfl
  | cons c cs ih =>
      intro b
      rw [runB_cons, ih]
      simp [buttonFrame, buttonSysStep, edgeRun, Nat.add_assoc]

lemma edgeRun_all_sustained (t : BState) (cs : List BState) :
    ∀ curr prev, (∀ c ∈ cs, c = t) → curr = t → prev = t → edgeRun t curr prev cs = 0 := by
  induction cs with
  | nil => intro curr prev _ hc hp; simp [edgeRun, fire, hc, hp]
  | cons c cs ih =>
      intro curr prev hall hc hp
      have hct : c = t := hall c (List.mem_cons_self c cs)
      show fire t curr prev + edgeRun t c curr cs = 0
      rw [ih c curr (fun x hx => hall x (List.mem_cons_of_mem c hx)) hct hc]
      simp [fire, hc, hp]

lemma edgeRun_rising (t : BState) (cs : List BState) (curr prev : BState)
    (hall : ∀ c ∈ cs, c = t) (hc : curr = t) (hp : prev ≠ t) :
    edgeRun t curr prev cs = 1 := by
  cases cs with
  | nil => simp [edgeRun, fire, hc, hp]
  | cons c cs =>
      have hct : c = t := hall c (List.mem_cons_self c cs)
      have h0 : edgeRun t c curr cs = 0 :=
        edgeRun_all_sustained t cs c curr (fun x hx => hall x (List.mem_cons_of_mem c hx)) hct hc
      show fire t curr prev + edgeRun t c curr cs = 1
      rw [h0]
      simp [fire, hc, hp]

lemma edgeRun_enter (t : BState) (cs : List BState) (curr prev : BState)
    (hne : cs ≠ []) (hall : ∀ c ∈ cs, c = t) (hc : curr ≠ t) :
    edgeRun t curr prev cs = 1 := by
  cases cs with
  | nil => exact absurd rfl hne
  | cons c cs =>
      have hct : c = t := hall c (List.mem_cons_self c cs)
      show fire t curr prev + edgeRun t c curr cs = 1
      rw [edgeRun_rising t cs c curr (fun x hx => hall x (List.mem_cons_of_mem c hx)) hct hc]
      simp [fire, hc]

lemma edgeRun_absent (t : BState) (cs : List BState) :
    ∀ curr prev, (∀ c ∈ cs, c ≠ t) → curr ≠ t → edgeRun t curr prev cs = 0 := by
  induction cs with
  | nil => intro curr prev _ hc; simp [edgeRun, fire, hc]
  | cons c cs ih =>
      intro curr prev hall hc
      have hct : c ≠ t := hall c (List.mem_cons_self c cs)
      show fire t curr prev + edgeRun t c curr cs = 0
      rw [ih c curr (fun x hx => hall x (List.mem_cons_of_mem c hx)) hct]
      simp [fire, hc]

lemma calibrationStep_done (t : Bool) (head : Vec3) (e : CalEntity)
    (h : e.needCalibration = false) : calibrationStep t head e = e := by
  simp [calibrationStep, h]

lemma calibrationRun_done (frames : List (Bool × Vec3)) :
    ∀ e : CalEntity, e.needCalibration = false → calibrationRun frames e = e := by
  induction frames with
  | nil => intro e _; rfl
  | cons p ps ih =>
      intro e h
      show calibrationRun ps (calibrationStep p.1 p.2 e) = e
      rw [calibrationStep_done p.1 p.2 e h]
      exact ih e h

lemma anyVisibleAcc_or (cs : List Bool) :
    ∀ v : Bool, cs.foldl (fun v c => if c then true else v) v = (v || cs.any id) := by
  induction cs with
  | nil => intro v; simp
  | cons c cs ih =>
      intro v
      show List.foldl (fun v c => if c then true else v) (if c then true else v) cs
        = (v || (c :: cs).any id)
      rw [ih]
      cases c <;> simp

lemma map_const_replicate (texts : List Bool) (b : Bool) :
    texts.map (fun _ => b) = List.replicate texts.length b := by
  induction texts with
  | nil => rfl
  | cons t ts ih => simp [ih, List.replicate_succ]

lemma fingerStep_noContact_below (dt : ℚ) (b : ButtonE) (h : b.y < b.restingY) :
    fingerStep dt [] b
      = { b with y := b.y + b.recoverySpeed * dt, currState := BState.recovering } := by
  simp [fingerStep, h]

lemma fingerStep_noContact_atRest (dt : ℚ) (b : ButtonE) (h : ¬ b.y < b.restingY) :
    fingerStep dt [] b = { b with y := b.restingY, currState := BState.resting } := by
  simp [fingerStep, h]

/-- Claim C1, evaluated at the failing input: with two simultaneous hand
contacts of pressing distances 0.01 and 0.03 on the scenario button at
rest, `FingerInputSystem` displaces the button by nothing at all —
`Math.max` applied to the two-element array (`functions.js:123`) yields
NaN, which fails the `> 0` test — instead of adopting the deeper 0.03
reading; the same 0.03 contact alone does move the button (here to the
full-press stop). -/
theorem fingerStep_twoContacts_eval :
    (fingerStep 0 [1/100, 3/100] pressDemo).y = pressDemo.y ∧
    (fingerStep 0 [1/100, 3/100] pressDemo).currState = BState.pressed ∧
    (fingerStep 0 [3/100] pressDemo).y
      = pressDemo.restingY - pressDemo.fullPressDistance := by
  refine ⟨?_, ?_, ?_⟩ <;> norm_num [fingerStep, jsMathMaxArr, pressDemo]

/-- Claim C2, counterexample: a no-contact recovery step from 0.01 below
rest with `delta = 1` lands at `y = 0.39`, strictly above `restingY = 0`:
the recovery advance of `functions.js:114` is not clamped at `restingY`. -/
theorem fingerStep_recovery_overshoot_cex :
    recovDemo.y < recovDemo.restingY ∧
    recovDemo.restingY < (fingerStep 1 [] recovDemo).y := by
  constructor <;> norm_num [fingerStep, recovDemo]

/-- Claim C2, amended: with no hand contact and the button below rest, one
`FingerInputSystem` step advances `position.y` by `recoverySpeed * delta`
with no clamp, setting state `recovering` (so a large `delta` can
overshoot `restingY`); any following no-contact step taken at or above
`restingY` snaps `position.y` to exactly `restingY` with state `resting`,
so an overshoot persists for at most one frame. -/
theorem fingerStep_recovery_step (dt dt2 : ℚ) (b : ButtonE) (h : b.y < b.restingY) :
    (fingerStep dt [] b).y = b.y + b.recoverySpeed * dt ∧
    (fingerStep dt [] b).currState = BState.recovering ∧
    (b.restingY ≤ (fingerStep dt [] b).y →
      (fingerStep dt2 [] (fingerStep dt [] b)).y = b.restingY ∧
      (fingerStep dt2 [] (fingerStep dt [] b)).currState = BState.resting) := by
  rw [fingerStep_noContact_below dt b h]
  refine ⟨rfl, rfl, ?_⟩
  intro hge
  rw [fingerStep_noContact_atRest dt2 _ (not_lt.mpr hge)]
  exact ⟨rfl, rfl⟩

/-- Witness for claim C2's amended theorem, on the concrete recovering
button with `delta = 1`: the step lands above rest and the next no-contact
step snaps back to rest exactly. -/
theorem fingerStep_recovery_step_witness :
    (fingerStep 1 [] recovDemo).y = recovDemo.y + recovDemo.recoverySpeed * 1 ∧
    (fingerStep 1 [] recovDemo).currState = BState.recovering ∧
    ((fingerStep 0 [] (fingerStep 1 [] recovDemo)).y = recovDemo.restingY ∧
      (fingerStep 0 [] (fingerStep 1 [] recovDemo)).currState = BState.resting) :=
  ⟨(fingerStep_recovery_step 1 0 recovDemo (by norm_num [recovDemo])).1,
   (fingerStep_recovery_step 1 0 recovDemo (by norm_num [recovDemo])).2.1,
   (fingerStep_recovery_step 1 0 recovDemo (by norm_num [recovDemo])).2.2
     (by norm_num [fingerStep, recovDemo])⟩

/-- Claim C6: a press step from at or above the full-press stop never
leaves `position.y` below `restingY - fullPressDistance`, and whenever the
applied press (a positive pressing distance) would take it to or past the
stop, `position.y` snaps to exactly `restingY - fullPressDistance` and the
state becomes `fully_pressed`. -/
theorem fingerStep_fullPress_clamp (dt d : ℚ) (b : ButtonE)
    (h : b.restingY - b.fullPressDistance ≤ b.y) :
    b.restingY - b.fullPressDistance ≤ (fingerStep dt [d] b).y ∧
    (0 < d → b.y - d ≤ b.restingY - b.fullPressDistance →
      (fingerStep dt [d] b).y = b.restingY - b.fullPressDistance ∧
      (fingerStep dt [d] b).currState = BState.fully_pressed) := by
  by_cases hd : 0 < d
  · by_cases hc : b.y - d ≤ b.restingY - b.fullPressDistance
    · have hs : fingerStep dt [d] b
          = { b with y := b.restingY - b.fullPressDistance
                     currState := BState.fully_pressed } := by
        simp [fingerStep, jsMathMaxArr, hd, hc]
      rw [hs]
      exact ⟨le_refl _, fun _ _ => ⟨rfl, rfl⟩⟩
    · have hs : fingerStep dt [d] b
          = { b with y := b.y - d, currState := BState.pressed } := by
        simp [fingerStep, jsMathMaxArr, hd, hc]
      rw [hs]
      exact ⟨le_of_lt (not_le.mp hc), fun _ hc2 => absurd hc2 hc⟩
  · by_cases hc : b.y ≤ b.restingY - b.fullPressDistance
    · have hs : fingerStep dt [d] b
          = { b with y := b.restingY - b.fullPressDistance
                     currState := BState.fully_pressed } := by
        simp [fingerStep, jsMathMaxArr, hd, hc]
      rw [hs]
      exact ⟨le_refl _, fun hd2 _ => absurd hd2 hd⟩
    · have hs : fingerStep dt [d] b
          = { b with y := b.y, currState := BState.pressed } := by
        simp [fingerStep, jsMathMaxArr, hd, hc]
      rw [hs]
      exact ⟨h, fun hd2 _ => absurd hd2 hd⟩

/-- Witness for claim C6 on the scenario button with a deep 0.1 contact:
the result sits exactly at the full-press stop, fully pressed. -/
theorem fingerStep_fullPress_clamp_witness :
    pressDemo.restingY - pressDemo.fullPressDistance ≤ (fingerStep 0 [1/10] pressDemo).y ∧
    ((fingerStep 0 [1/10] pressDemo).y = pressDemo.restingY - pressDemo.fullPressDistance ∧
      (fingerStep 0 [1/10] pressDemo).currState = BState.fully_pressed) :=
  ⟨(fingerStep_fullPress_clamp 0 (1/10) pressDemo (by norm_num [pressDemo])).1,
   (fingerStep_fullPress_clamp 0 (1/10) pressDemo (by norm_num [pressDemo])).2
     (by norm_num) (by norm_num [pressDemo])⟩

/-- Claim C3, counterexample: the registration order of
`functions.js:374-378` — the order the systems run in each frame — is not
the claimed CalibrationSystem-first, InstructionSystem-last order:
InstructionSystem is registered, and hence runs, first. -/
theorem systemOrder_cex :
    registeredSystems ≠ specSystemOrder ∧
    registeredSystems.head? = some SystemId.instruction ∧
    specSystemOrder.head? = some SystemId.calibration := by
  decide

/-- Claim C3, amended: each frame the four systems execute in their
registration order — InstructionSystem, CalibrationSystem, ButtonSystem,
FingerInputSystem — and, because InstructionSystem reads only the
controller visibility flags (which no system writes) and writes only the
instruction-text visibility (which no other system touches), the composed
per-frame world step is nonetheless extensionally equal to the claimed
Calibration-Button-Finger-Instruction composition. -/
theorem worldExecute_eq_specOrder :
    registeredSystems
      = [SystemId.instruction, SystemId.calibration, SystemId.button, SystemId.finger] ∧
    ∀ (dt : ℚ) (w : WorldState),
      worldExecute dt w = specSystemOrder.foldl (fun x s => sysStep s dt x) w := by
  refine ⟨rfl, ?_⟩
  intro dt w
  rfl

/-- Claim C4: the action callback fires exactly once per contiguous run of
frames with `currState == fully_pressed` — appending such a run (entered
from a non-fully-pressed state) to any history adds exactly one
invocation, however long the run is — and frames whose state is never
`fully_pressed` (in particular merely `pressed` ones) produce no
invocation at all. -/
theorem button_action_once_per_press_run (pre run mer : List BState)
    (hne : run ≠ []) (hfp : ∀ c ∈ run, c = BState.fully_pressed)
    (hpre : runCurr BState.resting pre ≠ BState.fully_pressed)
    (hmer : ∀ c ∈ mer, c ≠ BState.fully_pressed) :
    pressesIn (pre ++ run) = pressesIn pre + 1 ∧ pressesIn mer = 0 := by
  have hb1c : (runB initialButton pre).currState = runCurr BState.resting pre := by
    rw [runB_currState pre initialButton]
    rfl
  have hcne : (runB initialButton pre).currState ≠ BState.fully_pressed := by
    rw [hb1c]; exact hpre
  constructor
  · have hpre0 : pressesIn pre = (runB initialButton pre).pressCount := by
      show (buttonSysStep (runB initialButton pre)).pressCount = _
      simp [buttonSysStep, fire_of_ne _ _ _ hcne]
    show (buttonSysStep (runB initialButton (pre ++ run))).pressCount = _
    rw [runB_append, pressCount_runB run (runB initialButton pre),
        edgeRun_enter BState.fully_pressed run _ _ hne hfp hcne, hpre0]
  · show (buttonSysStep (runB initialButton mer)).pressCount = 0
    rw [pressCount_runB mer initialButton,
        edgeRun_absent BState.fully_pressed mer _ _ hmer (by decide)]
    rfl

/-- Witness for claim C4: a merely-pressed frame followed by a two-frame
sustained full press fires the action exactly once more than the
merely-pressed history alone, and a purely merely-pressed history fires it
never. -/
theorem button_action_once_per_press_run_witness :
    pressesIn ([BState.pressed] ++ [BState.fully_pressed, BState.fully_pressed])
      = pressesIn [BState.pressed] + 1 ∧
    pressesIn [BState.pressed, BState.pressed] = 0 :=
  button_action_once_per_press_run [BState.pressed]
    [BState.fully_pressed, BState.fully_pressed] [BState.pressed, BState.pressed]
    (by decide) (by decide) (by decide) (by decide)

/-- Claim C5: for a button whose release sound is bound, the release sound
plays exactly once per contiguous run of frames with
`currState == recovering` — appending such a run (entered from a
non-recovering state) to any history adds exactly one play, not one per
frame. -/
theorem release_sound_once_per_recovering_run (pre run : List BState)
    (hne : run ≠ []) (hrec : ∀ c ∈ run, c = BState.recovering)
    (hpre : runCurr BState.resting pre ≠ BState.recovering) :
    releasesIn (pre ++ run) = releasesIn pre + 1 := by
  have hb1c : (runB initialButton pre).currState = runCurr BState.resting pre := by
    rw [runB_currState pre initialButton]
    rfl
  have hcne : (runB initialButton pre).currState ≠ BState.recovering := by
    rw [hb1c]; exact hpre
  have hpre0 : releasesIn pre = (runB initialButton pre).releaseCount := by
    show (buttonSysStep (runB initialButton pre)).releaseCount = _
    simp [buttonSysStep, fire_of_ne _ _ _ hcne]
  show (buttonSysStep (runB initialButton (pre ++ run))).releaseCount = _
  rw [runB_append, releaseCount_runB run (runB initialButton pre),
      edgeRun_enter BState.recovering run _ _ hne hrec hcne, hpre0]

/-- Witness for claim C5: a full press followed by a three-frame sustained
recovery plays the release sound exactly once more than the press-only
history. -/
theorem release_sound_once_per_recovering_run_witness :
    releasesIn ([BState.fully_pressed]
        ++ [BState.recovering, BState.recovering, BState.recovering])
      = releasesIn [BState.fully_pressed] + 1 :=
  release_sound_once_per_recovering_run [BState.fully_pressed]
    [BState.recovering, BState.recovering, BState.recovering]
    (by decide) (by decide) (by decide)

/-- Claim C7: for an entity carrying the needs-calibration marker, a frame
with tracking available sets its position to `headPosition + offset`
componentwise and removes the marker; a frame without tracking changes
nothing; and once calibrated, any further sequence of frames — whatever
their tracking state and head positions — leaves the entity untouched. -/
theorem calibration_one_shot (head : Vec3) (e : CalEntity)
    (frames : List (Bool × Vec3)) (h : e.needCalibration = true) :
    calibrationStep true head e
      = { e with
          pos := { x := head.x + e.offset.x, y := head.y + e.offset.y
                   z := head.z + e.offset.z }
          needCalibration := false } ∧
    calibrationStep false head e = e ∧
    calibrationRun frames (calibrationStep true head e) = calibrationStep true head e := by
  have h1 : calibrationStep true head e
      = { e with
          pos := { x := head.x + e.offset.x, y := head.y + e.offset.y
                   z := head.z + e.offset.z }
          needCalibration := false } := by
    simp [calibrationStep, h]
  refine ⟨h1, by simp [calibrationStep, h], ?_⟩
  exact calibrationRun_done frames _ (by rw [h1])

/-- Witness for claim C7 on the console entity of `functions.js:380-383`
(offset `(0, -0.4, -0.3)`) with a sample head position and two later
frames. -/
theorem calibration_one_shot_witness :
    calibrationStep true headDemo calDemo
      = { calDemo with
          pos := { x := headDemo.x + calDemo.offset.x, y := headDemo.y + calDemo.offset.y
                   z := headDemo.z + calDemo.offset.z }
          needCalibration := false } ∧
    calibrationStep false headDemo calDemo = calDemo ∧
    calibrationRun calFrames (calibrationStep true headDemo calDemo)
      = calibrationStep true headDemo calDemo :=
  calibration_one_shot headDemo calDemo calFrames rfl

/-- Claim C8: on the scenario button (`restingY = 0`, `surfaceY = 0.05`,
`fullPressDistance = 0.02`) at rest, one frame with a single hand contact
of pressing distance 0.025 yields `position.y = -0.02` and state
`fully_pressed`, whatever the frame's `delta`; and the action callback
fires exactly once for that press, however many frames it is then
sustained. -/
theorem press_scenario (dt : ℚ) :
    (fingerStep dt [1/40] pressDemo).y = -(1/50) ∧
    (fingerStep dt [1/40] pressDemo).currState = BState.fully_pressed ∧
    ∀ n : Nat,
      pressesIn (List.replicate (n + 1) (fingerStep dt [1/40] pressDemo).currState) = 1 := by
  have hcs : (fingerStep dt [1/40] pressDemo).currState = BState.fully_pressed := by
    norm_num [fingerStep, jsMathMaxArr, pressDemo]
  refine ⟨?_, hcs, ?_⟩
  · norm_num [fingerStep, jsMathMaxArr, pressDemo]
  · intro n
    rw [hcs]
    show (buttonSysStep
      (runB initialButton (List.replicate (n + 1) BState.fully_pressed))).pressCount = 1
    rw [pressCount_runB (List.replicate (n + 1) BState.fully_pressed) initialButton,
        edgeRun_enter BState.fully_pressed (List.replicate (n + 1) BState.fully_pressed) _ _
          (by simp [List.replicate_succ])
          (fun c hc => List.eq_of_mem_replicate hc) (by decide)]
    rfl

/-- Claim C9: each frame, InstructionSystem sets every instruction-text
object's visibility to the OR of the hand-proxy visibility flags — true
exactly when some proxy is visible, false exactly when all are invisible —
depending only on this frame's flags (the previous text visibilities enter
only through their count). -/
theorem instruction_visibility (controllers texts : List Bool) :
    instructionStep controllers texts = List.replicate texts.length (controllers.any id) ∧
    (anyVisibleAcc controllers = true ↔ ∃ c ∈ controllers, c = true) ∧
    (anyVisibleAcc controllers = false ↔ ∀ c ∈ controllers, c = false) := by
  have hacc : anyVisibleAcc controllers = controllers.any id := by
    show List.foldl (fun v c => if c then true else v) false controllers = _
    rw [anyVisibleAcc_or controllers false]
    simp
  refine ⟨?_, ?_, ?_⟩
  · show texts.map (fun _ => anyVisibleAcc controllers) = _
    rw [hacc, map_const_replicate]
  · rw [hacc]
    simp [List.any_eq_true]
  · rw [hacc]
    simp [List.any_eq_false]

/-- Claim C10: from any valid scene index, `nextScene` and `prevScene`
keep the index within the 6-element scene list (wrapping modulo its
length) and are mutually inverse. -/
theorem scene_navigation (i : Nat) (h : i < scenes.length) :
    nextSceneIndex i < scenes.length ∧ prevSceneIndex i < scenes.length ∧
    prevSceneIndex (nextSceneIndex i) = i ∧ nextSceneIndex (prevSceneIndex i) = i := by
  have h6 : scenes.length = 6 := rfl
  unfold nextSceneIndex prevSceneIndex
  rw [h6] at h ⊢
  omega

/-- Witness for claim C10 at scene index 3. -/
theorem scene_navigation_witness :
    nextSceneIndex 3 < scenes.length ∧ prevSceneIndex 3 < scenes.length ∧
    prevSceneIndex (nextSceneIndex 3) = 3 ∧ nextSceneIndex (prevSceneIndex 3) = 3 :=
  scene_navigation 3 (by decide)

end CaucaVR
